import Mathlib

/-!
# bdm — donation ledger and webhook pipeline, shallow embedding

A shallow embedding of the bdm repository: the donation ledger
(`src/bdm/donate.py`) and the PayPal webhook / read-API resources
(`src/bdm/resource.py`).  Monetary amounts (`point2decimal` /
`Decimal`) are modelled as `Rat`, which is exact for decimal
arithmetic; timestamps as `Nat` (POSIX-like ticks supplied by a store
clock standing in for `Time()`); axiom `text` attributes with
`allowNone=True` as `Option String`.  Axiom storeIDs are unique across
item types, so the store carries a single fresh-ID counter.
-/

deriving instance DecidableEq for Except

namespace Bdm

/-- `Donation` (donate.py): `amount` (point2decimal), `date` (timestamp,
`defaultFactory` = current time), `paypalID` (text), `donator`
(reference, modelled as the owning donator's storeID). -/
structure Donation where
  storeID : Nat
  amount : Rat
  date : Nat
  paypalID : String
  donator : Nat
  deriving Repr, DecidableEq

/-- `Donator` (donate.py): `steamID` (text, `allowNone=True`),
`anonymous` (boolean), `totalAmount` (point2decimal, default 0). -/
structure Donator where
  storeID : Nat
  steamID : Option String
  anonymous : Bool
  totalAmount : Rat
  deriving Repr, DecidableEq

/-- The axiom store as the ledger uses it: the `Donator` and `Donation`
tables, the fresh storeID counter, and a clock read by the `date`
default factory. -/
structure Store where
  donators : List Donator
  donations : List Donation
  nextID : Nat
  clock : Nat
  deriving Repr, DecidableEq

/-- `Donator.donations` (`powerupsFor(IDonation)`): the donations linked
to the donator.  `Donation.installOn` sets the `donator` reference and
the powerup in the same call, so both stay in sync and the model keys
on the reference. -/
def Store.donationsOf (s : Store) (donatorID : Nat) : List Donation :=
  s.donations.filter (fun d => d.donator == donatorID)

/-- `Donator.getDonationAmount`:
`Decimal(sum(donation.amount for donation in self.donations))`. -/
def Store.getDonationAmount (s : Store) (donatorID : Nat) : Rat :=
  ((s.donationsOf donatorID).map Donation.amount).sum

/-- `Donator.calculateTotal`: sets `totalAmount` to `getDonationAmount()`. -/
def Store.calculateTotal (s : Store) (donatorID : Nat) : Store :=
  { s with donators := s.donators.map (fun d =>
      if d.storeID == donatorID then
        { d with totalAmount := s.getDonationAmount donatorID }
      else d) }

/-- `Donator.addDonation` followed by `Donation.installOn`: create the
donation (its `date` from the default factory, i.e. the clock), link it
to the donator and recalculate the owner's total. -/
def Store.addDonation (s : Store) (donatorID : Nat) (amount : Rat)
    (paypalID : String) : Store :=
  let don : Donation :=
    { storeID := s.nextID, amount := amount, date := s.clock,
      paypalID := paypalID, donator := donatorID }
  let s1 : Store :=
    { s with donations := s.donations ++ [don],
             nextID := s.nextID + 1, clock := s.clock + 1 }
  s1.calculateTotal donatorID

/-- `Donation.deleteFromStore`: remember the owner, delete the item from
the store, then recalculate the former owner's total. -/
def Store.deleteDonation (s : Store) (don : Donation) : Store :=
  let s1 : Store :=
    { s with donations := s.donations.eraseP (fun d => d.storeID == don.storeID) }
  s1.calculateTotal don.donator

/-- A single ledger mutation for the invariant claim: `addDonation`, or
`Donation.deleteFromStore` on the live donation with the given storeID
(no-op when no such donation is live — in Python a deleted item cannot
be deleted again). -/
inductive LedgerOp where
  | add (donatorID : Nat) (amount : Rat) (paypalID : String)
  | remove (donationID : Nat)
  deriving Repr, DecidableEq

def Store.applyOp (s : Store) (op : LedgerOp) : Store :=
  match op with
  | .add donatorID amount paypalID => s.addDonation donatorID amount paypalID
  | .remove donationID =>
    match s.donations.find? (fun d => d.storeID == donationID) with
    | some don => s.deleteDonation don
    | none => s

def Store.applyOps (s : Store) (ops : List LedgerOp) : Store :=
  ops.foldl Store.applyOp s

/-- The total-recalculation invariant: every donator's stored
`totalAmount` is the exact sum of the amounts of its currently linked
donations. -/
def ledgerInvariant (s : Store) : Prop :=
  ∀ d ∈ s.donators, d.totalAmount = s.getDonationAmount d.storeID

instance (s : Store) : Decidable (ledgerInvariant s) := by
  unfold ledgerInvariant; infer_instance

/-! ## Invariant preservation lemmas -/

theorem calculateTotal_donations (s : Store) (i : Nat) :
    (s.calculateTotal i).donations = s.donations := rfl

theorem getDonationAmount_congr {s t : Store} (h : s.donations = t.donations)
    (j : Nat) : s.getDonationAmount j = t.getDonationAmount j := by
  simp [Store.getDonationAmount, Store.donationsOf, h]

theorem find?_eraseP_decomp {α : Type} {p : α → Bool} {l : List α} {a : α}
    (h : l.find? p = some a) :
    ∃ l₁ l₂, (∀ b ∈ l₁, p b = false) ∧ l = l₁ ++ a :: l₂ ∧
      l.eraseP p = l₁ ++ l₂ := by
  induction l with
  | nil => simp at h
  | cons x xs ih =>
    by_cases hx : p x
    · rw [List.find?_cons_of_pos _ hx] at h
      cases h
      exact ⟨[], xs, by simp, by simp, by simp [List.eraseP_cons, hx]⟩
    · rw [List.find?_cons_of_neg _ hx] at h
      obtain ⟨l₁, l₂, h1, h2, h3⟩ := ih h
      refine ⟨x :: l₁, l₂, ?_, by simp [h2], ?_⟩
      · intro b hb
        rcases List.mem_cons.mp hb with rfl | hb
        · simpa using hx
        · exact h1 b hb
      · simp [List.eraseP_cons, hx, h3]

/-- `calculateTotal i` establishes the invariant, given that it already
held for every donator other than those with storeID `i`. -/
theorem invariant_calculateTotal {s : Store} (i : Nat)
    (h : ∀ d ∈ s.donators, d.storeID ≠ i →
      d.totalAmount = s.getDonationAmount d.storeID) :
    ledgerInvariant (s.calculateTotal i) := by
  intro d hd
  have hga : ∀ j, (s.calculateTotal i).getDonationAmount j = s.getDonationAmount j :=
    fun j => getDonationAmount_congr (calculateTotal_donations s i) j
  simp only [Store.calculateTotal, List.mem_map] at hd
  obtain ⟨d₀, hd₀, rfl⟩ := hd
  by_cases hid : d₀.storeID == i
  · have hsid : d₀.storeID = i := by simpa using hid
    simp [hid, hga, hsid]
  · have hsid : d₀.storeID ≠ i := by simpa using hid
    simp [hid, hga, h d₀ hd₀ hsid]

theorem filter_map_sum_append_other {l : List Donation} {don : Donation} {j : Nat}
    (h : don.donator ≠ j) :
    ((((l ++ [don]).filter (fun d => d.donator == j)).map Donation.amount)).sum
      = (((l.filter (fun d => d.donator == j)).map Donation.amount)).sum := by
  have hd : (don.donator == j) = false := by simpa using h
  simp [List.filter_append, List.filter_cons, hd]

theorem filter_map_sum_erase_other {l₁ l₂ : List Donation} {don : Donation} {j : Nat}
    (h : don.donator ≠ j) :
    ((((l₁ ++ l₂).filter (fun d => d.donator == j)).map Donation.amount)).sum
      = ((((l₁ ++ don :: l₂).filter (fun d => d.donator == j)).map Donation.amount)).sum := by
  have hd : (don.donator == j) = false := by simpa using h
  simp [List.filter_append, List.filter_cons, hd]

theorem invariant_addDonation {s : Store} (h : ledgerInvariant s)
    (donatorID : Nat) (amount : Rat) (paypalID : String) :
    ledgerInvariant (s.addDonation donatorID amount paypalID) := by
  apply invariant_calculateTotal
  intro d hd hne
  have hold := h d hd
  rw [hold]
  exact (filter_map_sum_append_other (Ne.symm hne)).symm

theorem invariant_deleteDonation {s : Store} (h : ledgerInvariant s)
    {don : Donation}
    (hfind : s.donations.find? (fun d => d.storeID == don.storeID) = some don) :
    ledgerInvariant (s.deleteDonation don) := by
  obtain ⟨l₁, l₂, _, hsplit, herase⟩ := find?_eraseP_decomp hfind
  apply invariant_calculateTotal
  intro d hd hne
  have hold := h d hd
  rw [hold]
  show s.getDonationAmount d.storeID
    = ((((s.donations.eraseP (fun x => x.storeID == don.storeID)).filter
        (fun x => x.donator == d.storeID)).map Donation.amount)).sum
  rw [herase]
  have hown : don.donator ≠ d.storeID := fun c => hne c.symm
  rw [filter_map_sum_erase_other hown, ← hsplit]
  rfl

theorem invariant_applyOp {s : Store} (h : ledgerInvariant s) (op : LedgerOp) :
    ledgerInvariant (s.applyOp op) := by
  cases op with
  | add donatorID amount paypalID => exact invariant_addDonation h donatorID amount paypalID
  | remove donationID =>
    simp only [Store.applyOp]
    cases hfind : s.donations.find? (fun d => d.storeID == donationID) with
    | none => exact h
    | some don =>
      have hp := List.find?_some hfind
      have hd : don.storeID = donationID := by simpa using hp
      exact invariant_deleteDonation h (by rw [hd]; exact hfind)

/-- C1: for every sequence of `addDonation` and
`Donation.deleteFromStore` operations, after each operation returns
every donator's `totalAmount` equals the exact decimal sum of the
amounts of the donations currently linked to that donator (any point
in the sequence is the endpoint of a prefix, so the invariant holds
after each operation). -/
theorem C1_totalAmount_invariant (s : Store) (ops : List LedgerOp)
    (h : ledgerInvariant s) : ledgerInvariant (s.applyOps ops) := by
  induction ops generalizing s with
  | nil => exact h
  | cons op rest ih => exact ih _ (invariant_applyOp h op)

/-- Witness for C1 on a concrete store and operation sequence. -/
theorem C1_totalAmount_invariant_witness :
    ledgerInvariant
      { donators := [{ storeID := 0, steamID := some "76561198000000000",
                       anonymous := false, totalAmount := 0 }],
        donations := [], nextID := 1, clock := 0 } ∧
    ledgerInvariant
      (Store.applyOps
        { donators := [{ storeID := 0, steamID := some "76561198000000000",
                         anonymous := false, totalAmount := 0 }],
          donations := [], nextID := 1, clock := 0 }
        [LedgerOp.add 0 10 "T1", LedgerOp.add 0 (5/2) "T2",
         LedgerOp.remove 1]) :=
  ⟨by decide, C1_totalAmount_invariant _ _ (by decide)⟩

/-! ## PayPal resource (resource.py) -/

/-- `PaypalError` as raised inside `PayPal.verify`: the provider said
INVALID (the error carries the raw payload for audit), or the provider
response was unrecognized (the error carries the response). -/
inductive PaypalError where
  | ipnInvalid (data : String)
  | unrecognizedResponse (response : String)
  deriving Repr, DecidableEq

/-- The endpoint used by `PayPal.verify`: the sandbox URL, overwritten
with the production URL when `self.SANDBOX` is unset. -/
def paypalURL (sandbox : Bool) : String :=
  if sandbox then "https://www.sandbox.paypal.com/cgi-bin/webscr"
  else "https://www.paypal.com/cgi-bin/webscr"

/-- The `_cb` classifier inside `PayPal.verify`, applied to the
provider's single-line response; `data` is the raw request payload read
from `request.content`. -/
def verifyClassify (data response : String) : Except PaypalError Bool :=
  if response = "INVALID" then .error (.ipnInvalid data)
  else if response = "VERIFIED" then .ok true
  else .error (.unrecognizedResponse response)

/-- The decoded `custom` field of an IPN payload: base64-encoded JSON
`{anonymous, steamid}`; `steamid` may be JSON null (`none`) or the
empty string, both falsy in the handler. -/
structure CustomData where
  anonymous : Bool
  steamid : Option String
  deriving Repr, DecidableEq

/-- The fields of a form-decoded IPN request (`request.args`) read by
`_process` and the `_payment_*` handlers, with the `data['key'][0]`
indexing pre-applied and the decimal amount strings parsed
(`Decimal(...)` is exact, so parsing is lossless). -/
structure IPNData where
  payment_status : String
  txn_id : String
  parent_txn_id : String
  settle_amount : Option Rat
  mc_gross : Rat
  custom : CustomData
  deriving Repr, DecidableEq

/-- Exceptions that can escape `_process` or a `_payment_*` handler:
`AttributeError` from the defaultless two-argument `getattr`,
`SteamIDError` from `steamidTo64` on an unparsable steam ID, and
axiom's `ItemNotFound` / `DuplicateUniqueItem` from `findUnique`. -/
inductive ProcError where
  | attributeError (name : String)
  | steamIDError (steamid : String)
  | itemNotFound
  | duplicateUniqueItem
  deriving Repr, DecidableEq

/-- `Store.findOrCreate(Donator, steamID=..., anonymous=...)` (axiom):
return the first donator matching all the given attributes, or create
one with those attributes (and the default `totalAmount = 0`).
Returns the possibly extended store and the donator's storeID. -/
def Store.findOrCreateDonator (s : Store) (steamID : Option String)
    (anonymous : Bool) : Store × Nat :=
  match s.donators.find? (fun d =>
      d.steamID == steamID && d.anonymous == anonymous) with
  | some d => (s, d.storeID)
  | none =>
    let d : Donator := { storeID := s.nextID, steamID := steamID,
                         anonymous := anonymous, totalAmount := 0 }
    ({ s with donators := s.donators ++ [d], nextID := s.nextID + 1 }, d.storeID)

/-- The steam-ID step of `_payment_completed`:
`steamID = custom['steamid']; if steamID: steamID = unicode(steamidTo64(steamID))`.
`steamidTo64` (`ValveSteamID.from_text(s).as_64()`) is an external
collaborator passed in as a function; it returns `none` where the
Python call raises on unparsable input.  A falsy steam ID (`None` or
`''`) skips resolution and is stored as-is. -/
def resolveSteamID (steamidTo64 : String → Option Nat)
    (raw : Option String) : Except ProcError (Option String) :=
  match raw with
  | none => .ok none
  | some sid =>
    if sid = "" then .ok (some sid)
    else
      match steamidTo64 sid with
      | some n => .ok (some (toString n))
      | none => .error (.steamIDError sid)

/-- `PayPal._payment_completed`: take the settled amount (falling back
to the gross amount), resolve the custom steam ID, then
`findOrCreate` the donator and `addDonation`.  The resolution step
precedes every store access, so on resolution failure nothing is
mutated. -/
def paymentCompleted (steamidTo64 : String → Option Nat) (s : Store)
    (data : IPNData) : Except ProcError Store :=
  let amount : Rat := data.settle_amount.getD data.mc_gross
  match resolveSteamID steamidTo64 data.custom.steamid with
  | .error e => .error e
  | .ok steamID =>
    let p := s.findOrCreateDonator steamID data.custom.anonymous
    .ok (p.1.addDonation p.2 amount data.txn_id)

/-- `Store.query(Donation, AND(Donation.paypalID == pid))`: the live
donations with that paypalID, in insertion order. -/
def Store.queryDonationsByPaypalID (s : Store) (pid : String) : List Donation :=
  s.donations.filter (fun d => d.paypalID == pid)

/-- `ItemQuery.deleteFromStore` (axiom): because `Donation` overrides
`deleteFromStore`, axiom takes its slow path, iterating the matched
items and calling each item's override in turn. -/
def Store.queryDeleteDonationsByPaypalID (s : Store) (pid : String) : Store :=
  (s.queryDonationsByPaypalID pid).foldl Store.deleteDonation s

/-- `PayPal._payment_refunded`: query by the parent transaction ID and
call `deleteFromStore` on the query; never raises. -/
def paymentRefunded (s : Store) (data : IPNData) : Except ProcError Store :=
  .ok (s.queryDeleteDonationsByPaypalID data.parent_txn_id)

/-- `Store.findUnique(Donation, AND(Donation.paypalID == pid))` (axiom):
the unique match; `ItemNotFound` on zero matches and
`DuplicateUniqueItem` on more than one. -/
def Store.findUniqueDonationByPaypalID (s : Store) (pid : String) :
    Except ProcError Donation :=
  match s.queryDonationsByPaypalID pid with
  | [] => .error .itemNotFound
  | [d] => .ok d
  | _ => .error .duplicateUniqueItem

/-- `PayPal._payment_reversed`: `findUnique` by the parent transaction
ID, then `deleteFromStore` on the unique match. -/
def paymentReversed (s : Store) (data : IPNData) : Except ProcError Store :=
  match s.findUniqueDonationByPaypalID data.parent_txn_id with
  | .error e => .error e
  | .ok don => .ok (s.deleteDonation don)

/-- `PayPal._payment_canceled_reversal`: logs only; no ledger mutation. -/
def paymentCanceledReversal (s : Store) (_data : IPNData) :
    Except ProcError Store :=
  .ok s

/-- Python's `str.lower()` as `_process` applies it to the payment
status (provider statuses are ASCII): lower-case every character.
Defined by structural recursion over the character list so that it
evaluates inside the kernel. -/
def pyLower (s : String) : String :=
  String.mk (s.data.map Char.toLower)

/-- The `_payment_*` attributes that exist on the `PayPal` class;
`getattr(self, '_payment_<status>')` can find exactly these. -/
inductive PaymentMethod where
  | completed | refunded | reversed | canceled_reversal
  deriving Repr, DecidableEq

def getattrPaymentMethod (status : String) : Option PaymentMethod :=
  if status = "completed" then some .completed
  else if status = "refunded" then some .refunded
  else if status = "reversed" then some .reversed
  else if status = "canceled_reversal" then some .canceled_reversal
  else none

/-- `PayPal._process`: dispatch on the lower-cased payment status.  The
two-argument `getattr` raises `AttributeError` when no
`_payment_<status>` attribute exists, so the subsequent
`if method is not None: ... else: log.err('Unknown payment status')`
never reaches its else branch — a bound method is never `None`, and a
missing one has already raised. -/
def process (steamidTo64 : String → Option Nat) (s : Store)
    (data : IPNData) : Except ProcError Store :=
  let paymentStatus := pyLower data.payment_status
  match getattrPaymentMethod paymentStatus with
  | none => .error (.attributeError ("_payment_" ++ paymentStatus))
  | some .completed => paymentCompleted steamidTo64 s data
  | some .refunded => paymentRefunded s data
  | some .reversed => paymentReversed s data
  | some .canceled_reversal => paymentCanceledReversal s data

/-- An error consumed by the `log.err` errback of
`PayPal.render_POST`: a verification failure or a processing failure. -/
inductive WebhookError where
  | verifyError (e : PaypalError)
  | processError (e : ProcError)
  deriving Repr, DecidableEq

/-- The observable outcome of `PayPal.render_POST`: the HTTP body and
status sent to the webhook caller, the resulting store, and the error
handed to the `log.err` errback, if any. -/
structure WebhookOutcome where
  body : String
  status : Nat
  store : Store
  loggedError : Option WebhookError
  deriving Repr, DecidableEq

/-- `PayPal.render_POST`: verify, then `_process`, with `log.err` as
the errback; the method itself returns `''`, which twisted serves with
the default 200 (OK) response code regardless of how the deferred chain
ends.  Handler errors are raised before any mutation (resolution
precedes store access in `_payment_completed`, `findUnique` precedes
the delete in `_payment_reversed`), so the store is unchanged on
error. -/
def renderPOST (steamidTo64 : String → Option Nat) (s : Store)
    (providerResponse rawData : String) (data : IPNData) : WebhookOutcome :=
  match verifyClassify rawData providerResponse with
  | .error e =>
    { body := "", status := 200, store := s, loggedError := some (.verifyError e) }
  | .ok _ =>
    match process steamidTo64 s data with
    | .error e =>
      { body := "", status := 200, store := s, loggedError := some (.processError e) }
    | .ok s' =>
      { body := "", status := 200, store := s', loggedError := none }

/-! ## Dispatch lemmas for `_process` -/

theorem process_completed {steamidTo64 : String → Option Nat} {s : Store}
    {data : IPNData} (hstatus : pyLower data.payment_status = "completed") :
    process steamidTo64 s data = paymentCompleted steamidTo64 s data := by
  simp only [process, hstatus]
  rfl

theorem process_refunded {steamidTo64 : String → Option Nat} {s : Store}
    {data : IPNData} (hstatus : pyLower data.payment_status = "refunded") :
    process steamidTo64 s data = paymentRefunded s data := by
  simp only [process, hstatus]
  rfl

theorem process_reversed {steamidTo64 : String → Option Nat} {s : Store}
    {data : IPNData} (hstatus : pyLower data.payment_status = "reversed") :
    process steamidTo64 s data = paymentReversed s data := by
  simp only [process, hstatus]
  rfl

/-- C4: `verify` classifies the provider's single-line response —
"VERIFIED" yields `True`; "INVALID" raises a `PaypalError` carrying the
raw payload; any other response raises an error of a different shape
(never equal to a confirmed-invalid error); and the outbound request
goes to the sandbox endpoint exactly when the SANDBOX flag is set,
otherwise to production. -/
theorem C4_verify_classification (data response : String) :
    verifyClassify data "VERIFIED" = .ok true ∧
    verifyClassify data "INVALID" = .error (.ipnInvalid data) ∧
    (response ≠ "VERIFIED" → response ≠ "INVALID" →
      verifyClassify data response = .error (.unrecognizedResponse response)) ∧
    (∀ d r, PaypalError.unrecognizedResponse r ≠ PaypalError.ipnInvalid d) ∧
    paypalURL true = "https://www.sandbox.paypal.com/cgi-bin/webscr" ∧
    paypalURL false = "https://www.paypal.com/cgi-bin/webscr" := by
  refine ⟨rfl, rfl, ?_, ?_, rfl, rfl⟩
  · intro h1 h2
    simp [verifyClassify, h1, h2]
  · intro d r h
    cases h

/-- Witness for C4 at a concrete anomalous provider response. -/
theorem C4_verify_classification_witness :
    ("PROBLEM" : String) ≠ "VERIFIED" ∧ ("PROBLEM" : String) ≠ "INVALID" ∧
    verifyClassify "cmd=x" "PROBLEM"
      = .error (.unrecognizedResponse "PROBLEM") :=
  ⟨by decide, by decide,
    (C4_verify_classification "cmd=x" "PROBLEM").2.2.1 (by decide) (by decide)⟩

/-- A verified event with the unhandled payment status `Pending`. -/
def pendingData : IPNData :=
  { payment_status := "Pending", txn_id := "TX1", parent_txn_id := "",
    settle_amount := none, mc_gross := 5,
    custom := { anonymous := false, steamid := none } }

/-- C2 (code bug): on a verified event whose status is not one of the
four handled ones, the defaultless `getattr` in `_process` raises
`AttributeError` — the `log.err('Unknown payment status: ...')` default
branch is dead code — so the event is not recorded as an
unrecognized-status audit event and processing aborts, although the
store is indeed left unmutated. -/
theorem C2_unrecognized_status_attributeError
    (steamidTo64 : String → Option Nat) (s : Store) :
    process steamidTo64 s pendingData
      = .error (.attributeError "_payment_pending") := by
  rfl

/-- The empty axiom store a fresh service starts from. -/
def emptyStore : Store :=
  { donators := [], donations := [], nextID := 0, clock := 0 }

/-! ## C8 — webhook boundary -/

/-- C8: the webhook endpoint answers the caller with an empty body and
HTTP 200 regardless of the verification/processing outcome; any
verification or processing error goes to the `log.err` errback (and on
a verification failure the store is untouched), never into the HTTP
response. -/
theorem C8_webhook_empty_200 (steamidTo64 : String → Option Nat)
    (s : Store) (providerResponse rawData : String) (data : IPNData) :
    (renderPOST steamidTo64 s providerResponse rawData data).body = "" ∧
    (renderPOST steamidTo64 s providerResponse rawData data).status = 200 ∧
    (∀ e, verifyClassify rawData providerResponse = .error e →
      (renderPOST steamidTo64 s providerResponse rawData data).loggedError
          = some (.verifyError e) ∧
      (renderPOST steamidTo64 s providerResponse rawData data).store = s) ∧
    (∀ b e, verifyClassify rawData providerResponse = .ok b →
      process steamidTo64 s data = .error e →
      (renderPOST steamidTo64 s providerResponse rawData data).loggedError
          = some (.processError e)) := by
  unfold renderPOST
  cases hv : verifyClassify rawData providerResponse with
  | error e =>
    refine ⟨rfl, rfl, ?_, ?_⟩ <;> intros <;> simp_all
  | ok b =>
    cases hp : process steamidTo64 s data with
    | error e => refine ⟨rfl, rfl, ?_, ?_⟩ <;> intros <;> simp_all
    | ok s' => refine ⟨rfl, rfl, ?_, ?_⟩ <;> intros <;> simp_all

/-- Witness for C8 at a concrete rejected payload. -/
theorem C8_webhook_empty_200_witness :
    (renderPOST (fun _ => none) emptyStore "INVALID" "raw" pendingData).body = "" ∧
    (renderPOST (fun _ => none) emptyStore "INVALID" "raw" pendingData).status = 200 ∧
    verifyClassify "raw" "INVALID" = .error (.ipnInvalid "raw") ∧
    (renderPOST (fun _ => none) emptyStore "INVALID" "raw" pendingData).loggedError
        = some (.verifyError (.ipnInvalid "raw")) := by
  have h := C8_webhook_empty_200 (fun _ => none) emptyStore "INVALID" "raw" pendingData
  exact ⟨h.1, h.2.1, by decide, (h.2.2.1 _ (by decide)).1⟩

/-! ## C6 — failed identity resolution leaves the ledger untouched -/

/-- C6: a verified completed event whose custom steam ID does not
resolve fails with the steam-ID parse error, and the ledger is
completely unchanged: the handler raises before any store access, and
the webhook pipeline only logs the error. -/
theorem C6_resolution_failure_no_mutation (steamidTo64 : String → Option Nat)
    (s : Store) (data : IPNData) (rawData : String) (sid : String)
    (hsid : data.custom.steamid = some sid) (hne : sid ≠ "")
    (hfail : steamidTo64 sid = none)
    (hstatus : pyLower data.payment_status = "completed") :
    process steamidTo64 s data = .error (.steamIDError sid) ∧
    renderPOST steamidTo64 s "VERIFIED" rawData data
      = { body := "", status := 200, store := s,
          loggedError := some (.processError (.steamIDError sid)) } := by
  have hp : process steamidTo64 s data = .error (.steamIDError sid) := by
    rw [process_completed hstatus]
    simp [paymentCompleted, resolveSteamID, hsid, hne, hfail]
  refine ⟨hp, ?_⟩
  unfold renderPOST
  simp [verifyClassify, hp]

/-- A completed event whose custom steam ID cannot be parsed. -/
def badSteamIDData : IPNData :=
  { payment_status := "Completed", txn_id := "TX9", parent_txn_id := "",
    settle_amount := none, mc_gross := 10,
    custom := { anonymous := false, steamid := some "not-a-steamid" } }

/-- Witness for C6 at a concrete unresolvable payload. -/
theorem C6_resolution_failure_no_mutation_witness :
    badSteamIDData.custom.steamid = some "not-a-steamid" ∧
    ("not-a-steamid" : String) ≠ "" ∧
    pyLower badSteamIDData.payment_status = "completed" ∧
    process (fun _ => none) emptyStore badSteamIDData
        = .error (.steamIDError "not-a-steamid") := by
  refine ⟨rfl, by decide, by decide, ?_⟩
  exact (C6_resolution_failure_no_mutation (fun _ => none) emptyStore
    badSteamIDData "raw" "not-a-steamid" rfl (by decide) rfl (by decide)).1

/-! ## C3 — refund vs reversal matching -/

theorem foldlDelete_donations (ms : List Donation) (st : Store) :
    (ms.foldl Store.deleteDonation st).donations
      = ms.foldl (fun l m => l.eraseP (fun d => d.storeID == m.storeID))
          st.donations := by
  induction ms generalizing st with
  | nil => rfl
  | cons m rest ih => exact ih (st.deleteDonation m)

theorem foldl_eraseP_cons_other {x : Donation} {acc ms : List Donation}
    (h : ∀ m ∈ ms, (m.storeID == x.storeID) = false) :
    ms.foldl (fun l m => l.eraseP (fun d => d.storeID == m.storeID)) (x :: acc)
      = x :: ms.foldl (fun l m => l.eraseP (fun d => d.storeID == m.storeID)) acc := by
  induction ms generalizing acc with
  | nil => rfl
  | cons m rest ih =>
    have hm : (x.storeID == m.storeID) = false := by
      have h1 := h m (by simp)
      simp only [beq_eq_false_iff_ne] at h1 ⊢
      exact h1.symm
    simp only [List.foldl_cons, List.eraseP_cons, hm, cond_false]
    exact ih (fun m' hm' => h m' (List.mem_cons_of_mem _ hm'))

theorem foldl_eraseP_filter (p : Donation → Bool) {l : List Donation}
    (hnodup : (l.map Donation.storeID).Nodup) :
    (l.filter p).foldl (fun acc m => acc.eraseP (fun d => d.storeID == m.storeID)) l
      = l.filter (fun d => !(p d)) := by
  induction l with
  | nil => rfl
  | cons x t ih =>
    rw [List.map_cons] at hnodup
    have hpair := List.nodup_cons.mp hnodup
    have hx : x.storeID ∉ t.map Donation.storeID := hpair.1
    have hnd : (t.map Donation.storeID).Nodup := hpair.2
    by_cases hpx : p x
    · have hfil : (x :: t).filter p = x :: t.filter p := by
        simp [List.filter_cons, hpx]
      rw [hfil, List.foldl_cons]
      have hhead : (x :: t).eraseP (fun d => d.storeID == x.storeID) = t := by
        simp [List.eraseP_cons]
      rw [hhead, ih hnd]
      simp [List.filter_cons, hpx]
    · have hfil : (x :: t).filter p = t.filter p := by
        simp [List.filter_cons, hpx]
      rw [hfil]
      have hother : ∀ m ∈ t.filter p, (m.storeID == x.storeID) = false := by
        intro m hm
        have hmt : m.storeID ∈ t.map Donation.storeID :=
          List.mem_map_of_mem _ (List.mem_of_mem_filter hm)
        simp only [beq_eq_false_iff_ne]
        intro c
        exact hx (c ▸ hmt)
      rw [foldl_eraseP_cons_other hother, ih hnd]
      simp [List.filter_cons, hpx]

theorem paymentRefunded_deletes_all {s : Store} {data : IPNData}
    (hnodup : (s.donations.map Donation.storeID).Nodup) :
    ∃ s', paymentRefunded s data = .ok s' ∧
      s'.donations = s.donations.filter
        (fun d => !(d.paypalID == data.parent_txn_id)) := by
  refine ⟨_, rfl, ?_⟩
  show (Store.queryDeleteDonationsByPaypalID s data.parent_txn_id).donations = _
  unfold Store.queryDeleteDonationsByPaypalID
  rw [foldlDelete_donations]
  exact foldl_eraseP_filter _ hnodup

/-- C3 (amended): processing a verified reversed event requires an
exact single parent-transaction-ID match — `ItemNotFound` on zero
matches, `DuplicateUniqueItem` on two or more, deletion of the unique
match otherwise — while processing a verified refunded event performs
the same lookup but never raises, silently deleting every matching
donation (all matches, not a first/arbitrary single one). -/
theorem C3_reversal_strict_refund_lax (steamidTo64 : String → Option Nat)
    (s : Store) (dataRev dataRef : IPNData)
    (hrev : pyLower dataRev.payment_status = "reversed")
    (href : pyLower dataRef.payment_status = "refunded")
    (hnodup : (s.donations.map Donation.storeID).Nodup) :
    (s.queryDonationsByPaypalID dataRev.parent_txn_id = [] →
      process steamidTo64 s dataRev = .error .itemNotFound) ∧
    (∀ d1 d2 rest,
      s.queryDonationsByPaypalID dataRev.parent_txn_id = d1 :: d2 :: rest →
      process steamidTo64 s dataRev = .error .duplicateUniqueItem) ∧
    (∀ don, s.queryDonationsByPaypalID dataRev.parent_txn_id = [don] →
      process steamidTo64 s dataRev = .ok (s.deleteDonation don)) ∧
    (∃ s', process steamidTo64 s dataRef = .ok s' ∧
      s'.donations = s.donations.filter
        (fun d => !(d.paypalID == dataRef.parent_txn_id))) := by
  refine ⟨?_, ?_, ?_, ?_⟩
  · intro h
    rw [process_reversed hrev]
    simp [paymentReversed, Store.findUniqueDonationByPaypalID, h]
  · intro d1 d2 rest h
    rw [process_reversed hrev]
    simp [paymentReversed, Store.findUniqueDonationByPaypalID, h]
  · intro don h
    rw [process_reversed hrev]
    simp [paymentReversed, Store.findUniqueDonationByPaypalID, h]
  · rw [process_refunded href]
    exact paymentRefunded_deletes_all hnodup

/-- A store holding one donator and two donations sharing the parent
transaction ID "T1". -/
def twoMatchStore : Store :=
  { donators := [{ storeID := 0, steamID := some "76561198000000001",
                   anonymous := false, totalAmount := 30 }],
    donations :=
      [{ storeID := 1, amount := 10, date := 0, paypalID := "T1", donator := 0 },
       { storeID := 2, amount := 20, date := 1, paypalID := "T1", donator := 0 }],
    nextID := 3, clock := 2 }

/-- A refunded IPN event whose parent transaction ID is "T1". -/
def refundT1Data : IPNData :=
  { payment_status := "Refunded", txn_id := "", parent_txn_id := "T1",
    settle_amount := none, mc_gross := 0,
    custom := { anonymous := false, steamid := none } }

/-- A reversed IPN event whose parent transaction ID matches nothing. -/
def reverseT9Data : IPNData :=
  { payment_status := "Reversed", txn_id := "", parent_txn_id := "T9",
    settle_amount := none, mc_gross := 0,
    custom := { anonymous := false, steamid := none } }

/-- C3 counterexample: with two donations matching the refunded parent
transaction ID, `_payment_refunded` deletes both of them (the store
ends with no donations and a recalculated zero total), not a single
first/arbitrary match as the claim states. -/
theorem C3_counterexample_refund_deletes_all :
    (twoMatchStore.donations.filter (fun d => d.paypalID == "T1")).length = 2 ∧
    process (fun _ => none) twoMatchStore refundT1Data
      = .ok { donators := [{ storeID := 0, steamID := some "76561198000000001",
                             anonymous := false, totalAmount := 0 }],
              donations := [], nextID := 3, clock := 2 } := by
  exact ⟨by decide, by decide⟩

/-- Witness for the amended C3 at concrete stores and payloads. -/
theorem C3_reversal_strict_refund_lax_witness :
    process (fun _ => none) twoMatchStore reverseT9Data = .error .itemNotFound ∧
    (∃ s', process (fun _ => none) twoMatchStore refundT1Data = .ok s' ∧
      s'.donations = twoMatchStore.donations.filter
        (fun d => !(d.paypalID == refundT1Data.parent_txn_id))) := by
  have h := C3_reversal_strict_refund_lax (fun _ => none) twoMatchStore
    reverseT9Data refundT1Data (by decide) (by decide) (by decide)
  exact ⟨h.1 (by decide), h.2.2.2⟩

/-! ## C7 — duplicate completed events are not idempotent -/

/-- C7: processing the same completed event payload twice from an empty
ledger produces two distinct donation entries (distinct storeIDs, same
transaction ID) for the one donator, whose totalAmount ends at double
the single-event amount: processing is not idempotent. -/
theorem C7_double_processing_not_idempotent
    (steamidTo64 : String → Option Nat) (data : IPNData) (sid64 : Option String)
    (hstatus : pyLower data.payment_status = "completed")
    (hres : resolveSteamID steamidTo64 data.custom.steamid = .ok sid64) :
    ∃ s1 s2,
      process steamidTo64 emptyStore data = .ok s1 ∧
      process steamidTo64 s1 data = .ok s2 ∧
      s1.donations.length = 1 ∧
      s2.donations.length = 2 ∧
      s2.donations.map Donation.storeID = [1, 2] ∧
      (∀ d ∈ s2.donations, d.paypalID = data.txn_id ∧ d.donator = 0) ∧
      s1.donators.map Donator.totalAmount
        = [data.settle_amount.getD data.mc_gross] ∧
      s2.donators.map Donator.totalAmount
        = [2 * (data.settle_amount.getD data.mc_gross)] := by
  refine ⟨{ donators := [{ storeID := 0, steamID := sid64,
                           anonymous := data.custom.anonymous,
                           totalAmount := data.settle_amount.getD data.mc_gross }],
            donations := [{ storeID := 1,
                            amount := data.settle_amount.getD data.mc_gross,
                            date := 0, paypalID := data.txn_id, donator := 0 }],
            nextID := 2, clock := 1 },
          { donators := [{ storeID := 0, steamID := sid64,
                           anonymous := data.custom.anonymous,
                           totalAmount := data.settle_amount.getD data.mc_gross
                             + data.settle_amount.getD data.mc_gross }],
            donations := [{ storeID := 1,
                            amount := data.settle_amount.getD data.mc_gross,
                            date := 0, paypalID := data.txn_id, donator := 0 },
                          { storeID := 2,
                            amount := data.settle_amount.getD data.mc_gross,
                            date := 1, paypalID := data.txn_id, donator := 0 }],
            nextID := 3, clock := 2 },
          ?_, ?_, rfl, rfl, rfl, ?_, rfl, ?_⟩
  · rw [process_completed hstatus]
    simp [paymentCompleted, hres, Store.findOrCreateDonator, emptyStore,
      Store.addDonation, Store.calculateTotal, Store.getDonationAmount,
      Store.donationsOf]
  · rw [process_completed hstatus]
    simp [paymentCompleted, hres, Store.findOrCreateDonator,
      Store.addDonation, Store.calculateTotal, Store.getDonationAmount,
      Store.donationsOf]
  · intro d hd
    rcases List.mem_cons.mp hd with rfl | hd2
    · exact ⟨rfl, rfl⟩
    · rcases List.mem_cons.mp hd2 with rfl | hd3
      · exact ⟨rfl, rfl⟩
      · cases hd3
  · simp [two_mul]

/-- The twice-delivered completed payload for the C7 witness. -/
def completedTwiceData : IPNData :=
  { payment_status := "Completed", txn_id := "TXDUP", parent_txn_id := "",
    settle_amount := some 7, mc_gross := 8,
    custom := { anonymous := false, steamid := some "STEAM_0:1:1" } }

/-- The identity-resolution collaborator used by the C7 witness. -/
def mockSteamidTo64 : String → Option Nat := fun _ => some 42

/-- Witness for C7 at a concrete payload. -/
theorem C7_double_processing_not_idempotent_witness :
    pyLower completedTwiceData.payment_status = "completed" ∧
    resolveSteamID mockSteamidTo64 completedTwiceData.custom.steamid
      = .ok (some "42") ∧
    ∃ s1 s2,
      process mockSteamidTo64 emptyStore completedTwiceData = .ok s1 ∧
      process mockSteamidTo64 s1 completedTwiceData = .ok s2 ∧
      s1.donations.length = 1 ∧
      s2.donations.length = 2 ∧
      s2.donations.map Donation.storeID = [1, 2] ∧
      (∀ d ∈ s2.donations, d.paypalID = completedTwiceData.txn_id ∧ d.donator = 0) ∧
      s1.donators.map Donator.totalAmount
        = [completedTwiceData.settle_amount.getD completedTwiceData.mc_gross] ∧
      s2.donators.map Donator.totalAmount
        = [2 * (completedTwiceData.settle_amount.getD completedTwiceData.mc_gross)] :=
  ⟨by decide, by decide,
    C7_double_processing_not_idempotent mockSteamidTo64 completedTwiceData
      (some "42") (by decide) (by decide)⟩

/-! ## DonationAPI (resource.py) — read path -/

/-- The donator filter shared by `recent` and `getTop`:
`Donator.anonymous == False` and `Donator.steamID != None`. -/
def donatorEligible (d : Donator) : Bool :=
  !d.anonymous && d.steamID.isSome

/-- `sort=Donator.totalAmount.desc`: greater totals first. -/
def totalAmountDesc (a b : Donator) : Prop :=
  b.totalAmount ≤ a.totalAmount

instance : DecidableRel totalAmountDesc := fun a b =>
  inferInstanceAs (Decidable (b.totalAmount ≤ a.totalAmount))

instance : IsTotal Donator totalAmountDesc :=
  ⟨fun a b => le_total b.totalAmount a.totalAmount⟩

instance : IsTrans Donator totalAmountDesc :=
  ⟨fun _ _ _ hab hbc => le_trans hbc hab⟩

/-- `getTop`'s store query: donators with `anonymous == False` and
`steamID != None`, ordered by `totalAmount` descending (insertionSort
standing in for the store's ORDER BY), limited. -/
def Store.queryTopDonators (s : Store) (limit : Nat) : List Donator :=
  (List.insertionSort totalAmountDesc (s.donators.filter donatorEligible)).take limit

/-- `donatorToDict` (donate.py): `{steamID, amount: str(totalAmount)}`;
the amount is kept as the exact decimal it prints. -/
structure DonatorDict where
  steamID : Option String
  amount : Rat
  deriving Repr, DecidableEq

def donatorToDict (d : Donator) : DonatorDict :=
  { steamID := d.steamID, amount := d.totalAmount }

/-- `DonationAPI.getTop`: query, then emit a dict per donator.  The
`_cb` join with `getPlayerSummaries` merges external profile fields
into each entry in order; the external fields are outside the ledger
model. -/
def getTop (s : Store) (limit : Nat) : List DonatorDict :=
  (s.queryTopDonators limit).map donatorToDict

/-- `sort=Donation.date.descending`: newer donations first. -/
def dateDesc (a b : Donation) : Prop :=
  b.date ≤ a.date

instance : DecidableRel dateDesc := fun a b =>
  inferInstanceAs (Decidable (b.date ≤ a.date))

instance : IsTotal Donation dateDesc :=
  ⟨fun a b => le_total b.date a.date⟩

instance : IsTrans Donation dateDesc :=
  ⟨fun _ _ _ hab hbc => le_trans hbc hab⟩

/-- The join of `recent`'s query —
`AND(Donation.donator == Donator.storeID, Donator.anonymous == False,
Donator.steamID != None)` — as a per-donation predicate: the owning
donator exists, is non-anonymous and has a steam ID. -/
def Store.donationEligible (s : Store) (don : Donation) : Bool :=
  match s.donators.find? (fun d => d.storeID == don.donator) with
  | some d => donatorEligible d
  | none => false

/-- `recent`'s store query: the join above, ordered by `date`
descending, limited. -/
def Store.queryRecentDonations (s : Store) (limit : Nat) : List Donation :=
  (List.insertionSort dateDesc (s.donations.filter s.donationEligible)).take limit

/-- One entry of `recent`'s result: the owner's profile record (keyed
by the owner's steam ID; external profile fields outside the model)
extended with the donation's date and amount. -/
structure RecentEntry where
  steamID : Option String
  date : Nat
  amount : Rat
  deriving Repr, DecidableEq

def recentEntryOf (s : Store) (don : Donation) : RecentEntry :=
  { steamID :=
      match s.donators.find? (fun d => d.storeID == don.donator) with
      | some d => d.steamID
      | none => none,
    date := don.date, amount := don.amount }

/-- `DonationAPI.recent`. -/
def recent (s : Store) (limit : Nat) : List RecentEntry :=
  (s.queryRecentDonations limit).map (recentEntryOf s)

/-- Shared specification of `ORDER BY ... LIMIT n` as both read queries
use it: the taken page plus the dropped rest permute the filtered rows,
the page is sorted, every page row dominates every dropped row, and the
page length is `min limit (filtered count)`. -/
theorem sort_take_spec {α : Type} (r : α → α → Prop) [DecidableRel r]
    [IsTotal α r] [IsTrans α r] (l : List α) (limit : Nat) :
    ((List.insertionSort r l).take limit ++ (List.insertionSort r l).drop limit).Perm l ∧
    List.Sorted r ((List.insertionSort r l).take limit) ∧
    (∀ x ∈ (List.insertionSort r l).take limit,
      ∀ y ∈ (List.insertionSort r l).drop limit, r x y) ∧
    ((List.insertionSort r l).take limit).length = min limit l.length := by
  have hperm : (List.insertionSort r l).Perm l := List.perm_insertionSort r l
  have hsorted : List.Sorted r (List.insertionSort r l) :=
    List.sorted_insertionSort r l
  have happ : List.Pairwise r
      ((List.insertionSort r l).take limit ++ (List.insertionSort r l).drop limit) := by
    rw [List.take_append_drop]
    exact hsorted
  refine ⟨?_, ?_, ?_, ?_⟩
  · rw [List.take_append_drop]
    exact hperm
  · exact List.Pairwise.sublist (List.take_sublist limit _) hsorted
  · exact (List.pairwise_append.mp happ).2.2
  · rw [List.length_take, hperm.length_eq]

/-- Donators A, B, C with totals 30, 50, 10, all non-anonymous and
identified. -/
def topABCStore : Store :=
  { donators :=
      [{ storeID := 0, steamID := some "A", anonymous := false, totalAmount := 30 },
       { storeID := 1, steamID := some "B", anonymous := false, totalAmount := 50 },
       { storeID := 2, steamID := some "C", anonymous := false, totalAmount := 10 }],
    donations := [], nextID := 3, clock := 0 }

/-- C5: `getTop` returns at most `limit` donators with greatest
`totalAmount` among non-anonymous, identified donators, `totalAmount`
descending (the returned page plus a rest of dominated donators
permutes the eligible donators), and on totals {A 30, B 50, C 10},
`getTop 2` returns [B, A] in that order. -/
theorem C5_getTop_greatest (s : Store) (limit : Nat) :
    (∃ rest,
      (s.queryTopDonators limit ++ rest).Perm (s.donators.filter donatorEligible) ∧
      List.Sorted totalAmountDesc (s.queryTopDonators limit) ∧
      ∀ x ∈ s.queryTopDonators limit, ∀ y ∈ rest, y.totalAmount ≤ x.totalAmount) ∧
    (∀ x ∈ s.queryTopDonators limit, donatorEligible x = true) ∧
    (s.queryTopDonators limit).length
      = min limit (s.donators.filter donatorEligible).length ∧
    getTop s limit = (s.queryTopDonators limit).map donatorToDict ∧
    getTop topABCStore 2
      = [{ steamID := some "B", amount := 50 },
         { steamID := some "A", amount := 30 }] := by
  obtain ⟨hp, hs, hd, hl⟩ :=
    sort_take_spec totalAmountDesc (s.donators.filter donatorEligible) limit
  refine ⟨⟨(List.insertionSort totalAmountDesc
      (s.donators.filter donatorEligible)).drop limit, hp, hs, hd⟩, ?_, hl, rfl, by decide⟩
  intro x hx
  have hx1 : x ∈ List.insertionSort totalAmountDesc (s.donators.filter donatorEligible) :=
    (List.take_sublist limit _).subset hx
  have hx2 : x ∈ s.donators.filter donatorEligible :=
    (List.perm_insertionSort totalAmountDesc _).subset hx1
  exact List.of_mem_filter hx2

/-- Witness for C5 at the concrete three-donator store. -/
theorem C5_getTop_greatest_witness :
    getTop topABCStore 2
      = [{ steamID := some "B", amount := 50 },
         { steamID := some "A", amount := 30 }] :=
  (C5_getTop_greatest emptyStore 0).2.2.2.2

/-- Two non-anonymous identified donators with five donations at
distinct dates 10..14. -/
def fiveDonationStore : Store :=
  { donators :=
      [{ storeID := 0, steamID := some "A", anonymous := false, totalAmount := 5 },
       { storeID := 1, steamID := some "B", anonymous := false, totalAmount := 10 }],
    donations :=
      [{ storeID := 2, amount := 1, date := 10, paypalID := "P1", donator := 0 },
       { storeID := 3, amount := 2, date := 11, paypalID := "P2", donator := 1 },
       { storeID := 4, amount := 3, date := 12, paypalID := "P3", donator := 1 },
       { storeID := 5, amount := 4, date := 13, paypalID := "P4", donator := 0 },
       { storeID := 6, amount := 5, date := 14, paypalID := "P5", donator := 1 }],
    nextID := 7, clock := 15 }

/-- C9: `recent` returns at most `limit` donations of non-anonymous,
identified donators, newest first by date (the returned page plus a
rest of older donations permutes the eligible donations), and on a
ledger with 5 such donations across 2 donators, `recent 3` returns
exactly the 3 newest, newest first. -/
theorem C9_recent_newest_first (s : Store) (limit : Nat) :
    (∃ rest,
      (s.queryRecentDonations limit ++ rest).Perm
        (s.donations.filter s.donationEligible) ∧
      List.Sorted dateDesc (s.queryRecentDonations limit) ∧
      ∀ x ∈ s.queryRecentDonations limit, ∀ y ∈ rest, y.date ≤ x.date) ∧
    (∀ x ∈ s.queryRecentDonations limit, s.donationEligible x = true) ∧
    (s.queryRecentDonations limit).length
      = min limit (s.donations.filter s.donationEligible).length ∧
    recent s limit = (s.queryRecentDonations limit).map (recentEntryOf s) ∧
    recent fiveDonationStore 3
      = [{ steamID := some "B", date := 14, amount := 5 },
         { steamID := some "A", date := 13, amount := 4 },
         { steamID := some "B", date := 12, amount := 3 }] := by
  obtain ⟨hp, hs, hd, hl⟩ :=
    sort_take_spec dateDesc (s.donations.filter s.donationEligible) limit
  refine ⟨⟨(List.insertionSort dateDesc
      (s.donations.filter s.donationEligible)).drop limit, hp, hs, hd⟩, ?_, hl, rfl, by decide⟩
  intro x hx
  have hx1 : x ∈ List.insertionSort dateDesc (s.donations.filter s.donationEligible) :=
    (List.take_sublist limit _).subset hx
  have hx2 : x ∈ s.donations.filter s.donationEligible :=
    (List.perm_insertionSort dateDesc _).subset hx1
  exact List.of_mem_filter hx2

/-- Witness for C9 at the concrete five-donation store. -/
theorem C9_recent_newest_first_witness :
    recent fiveDonationStore 3
      = [{ steamID := some "B", date := 14, amount := 5 },
         { steamID := some "A", date := 13, amount := 4 },
         { steamID := some "B", date := 12, amount := 3 }] :=
  (C9_recent_newest_first emptyStore 0).2.2.2.2

/-! ## DonationAPI.render_GET and the JSON envelope (C10) -/

/-- Errors escaping `render_GET` into the `jsonResult` error path:
the bare `Exception("No SteamID provided.")`, the `BloodyError` raised
on an unknown steam ID, axiom's `DuplicateUniqueItem` escaping
`findUnique` (only `ItemNotFound` is caught), and the `IndexError`
from `request.postpath[1]` on a one-segment path. -/
inductive ApiError where
  | noSteamID
  | bloodyNotFound (steamid : String)
  | duplicateDonator
  | indexError
  deriving Repr, DecidableEq

/-- Modelled from the spec: `bdm/constants.py` (`CODE`) and
`bdm/error.py` are not under src/.  Per the spec, the one domain code
mapped to 404 is 103 (the NotFound code carried by `BloodyError`), and
errors without a `code` attribute fall back to `CODE.UNKNOWN`, some
fixed code different from 103 whose numeric value is immaterial here. -/
def CODE_UNKNOWN : Nat := 0

def apiErrorCode : ApiError → Nat
  | .bloodyNotFound _ => 103
  | _ => CODE_UNKNOWN

/-- `_mapErrorCodeToStatus` (resource.py): 103 ↦ 404, others ↦ 500. -/
def mapErrorCodeToStatus (code : Nat) : Nat :=
  if code = 103 then 404 else 500

/-- `DonationAPI.steamID`: `findUnique` the donator by steam ID
(`ItemNotFound` is caught and re-raised as `BloodyError`; a duplicate
raises `DuplicateUniqueItem` uncaught), then list its donations. -/
def apiSteamID (s : Store) (steamid : String) : Except ApiError (List Donation) :=
  match s.donators.filter (fun d => d.steamID == some steamid) with
  | [] => .error (.bloodyNotFound steamid)
  | [d] => .ok (s.donationsOf d.storeID)
  | _ => .error .duplicateDonator

/-- The value `DonationAPI.render_GET` hands to `jsonResult`.  The
`recent` and `top` branches call `self.recent` / `self.getTop` with the
raw second path segment (a string; absent ↦ the integer 5); the
database's coercion of that raw argument is outside the ledger model,
so the dispatch result records the branch taken and its raw argument. -/
inductive RenderResult where
  | nope
  | donations (l : List Donation)
  | recentCall (rawLimit : Option String)
  | topCall (rawLimit : Option String)
  | noResource
  deriving Repr, DecidableEq

/-- `DonationAPI.render_GET` inside the `jsonResult` decorator: route on
`request.postpath`.  On the steamid route, `request.postpath[1]` on a
one-segment path raises `IndexError`; then
`len(request.postpath[1]) <= 1` raises `Exception("No SteamID
provided.")` before `self.steamID` is ever consulted (the
`or ... is None` test is dead — a path segment is never `None`, and
`len` would have raised on one first). -/
def renderGET (s : Store) (postpath : List String) : Except ApiError RenderResult :=
  match postpath with
  | [] => .ok .nope
  | name :: rest =>
    if name = "steamid" then
      match rest with
      | [] => .error .indexError
      | arg :: _ =>
        if arg.length ≤ 1 then .error .noSteamID
        else (apiSteamID s arg).map RenderResult.donations
    else if name = "recent" then .ok (.recentCall rest.head?)
    else if name = "top" then .ok (.topCall rest.head?)
    else .ok .noResource

/-- `jsonResult` with `_writeJSONResponse` / `_writeJSONErrorResponse`:
a success envelope, or an error envelope built from the failure's
`code` attribute (absent ↦ `CODE.UNKNOWN`) and its mapped HTTP
status. -/
inductive Envelope where
  | success (result : RenderResult)
  | failure (code : Nat) (status : Nat)
  deriving Repr, DecidableEq

def jsonResult (r : Except ApiError RenderResult) : Envelope :=
  match r with
  | .ok v => .success v
  | .error e => .failure (apiErrorCode e) (mapErrorCodeToStatus (apiErrorCode e))

/-- C10: a GET on the steamid route whose path argument has length 0
or 1 raises before any ledger lookup — the result is the same error
whatever the store holds, and the caller receives the JSON error
envelope (HTTP 500) instead of donation data — so a donator whose
steam ID is a single character can never be retrieved through this
route. -/
theorem C10_short_steamid_rejected (s s' : Store) (arg : String)
    (rest : List String) (h : arg.length ≤ 1) :
    renderGET s ("steamid" :: arg :: rest) = .error .noSteamID ∧
    renderGET s ("steamid" :: arg :: rest) = renderGET s' ("steamid" :: arg :: rest) ∧
    jsonResult (renderGET s ("steamid" :: arg :: rest))
      = .failure CODE_UNKNOWN 500 := by
  have h1 : ∀ t : Store, renderGET t ("steamid" :: arg :: rest) = .error .noSteamID := by
    intro t
    simp [renderGET, h]
  refine ⟨h1 s, (h1 s).trans (h1 s').symm, ?_⟩
  rw [h1 s]
  rfl

/-- A store whose sole donator has the single-character steam ID "x". -/
def singleCharStore : Store :=
  { donators := [{ storeID := 0, steamID := some "x", anonymous := false,
                   totalAmount := 5 }],
    donations := [{ storeID := 1, amount := 5, date := 0, paypalID := "T",
                    donator := 0 }],
    nextID := 2, clock := 1 }

/-- Witness for C10: even with a donator whose steam ID is exactly
"x", the route answers the error envelope. -/
theorem C10_short_steamid_rejected_witness :
    ("x" : String).length ≤ 1 ∧
    renderGET singleCharStore ["steamid", "x"] = .error .noSteamID ∧
    jsonResult (renderGET singleCharStore ["steamid", "x"])
      = .failure CODE_UNKNOWN 500 := by
  have h := C10_short_steamid_rejected singleCharStore emptyStore "x" [] (by decide)
  exact ⟨by decide, h.1, h.2.2⟩

end Bdm
